import Mathlib

/-!
Verification development for the i3-revive session save/restore tool.

The Rust sources (src/main.rs, src/config.rs, src/i3ipc.rs, src/i3_tree.rs,
src/process.rs, src/metadata.rs) are shallowly embedded below.  External
effects (the X server, /proc reads, the i3 socket, the filesystem, the shlex
and serde_json crates, compiled regexes from user configuration) are
represented as explicit parameters or oracle functions; every piece of
control flow and string manipulation belonging to the repository itself is
translated directly from the source.  Rust panics (unwrap/expect/assert) are
modelled as a distinguished error outcome, since they abort the process.
-/

namespace I3Revive

/-! ### String helpers

Structurally recursive equivalents of the std string operations the
source uses (split, trim, parse), so that concrete runs of the embedded
code reduce inside the kernel. -/

def digitsToNat (l : List Char) : Nat :=
  l.foldl (fun acc c => acc * 10 + (c.toNat - '0'.toNat)) 0

/-- Rust `str::parse::<u32>` on the strings the source parses (digit
runs): succeeds on a non-empty all-digit string. -/
def strToNat? (s : String) : Option Nat :=
  if s.data ≠ [] ∧ s.data.all Char.isDigit then some (digitsToNat s.data) else none

def splitOnCharGo (sep : Char) : List Char → List Char → List String
  | [], acc => [⟨acc.reverse⟩]
  | c :: rest, acc =>
      if c = sep then ⟨acc.reverse⟩ :: splitOnCharGo sep rest []
      else splitOnCharGo sep rest (c :: acc)

/-- Rust `str::split(sep)` for a character separator (keeps empty
pieces). -/
def splitOnChar (sep : Char) (s : String) : List String :=
  splitOnCharGo sep s.data []

def splitPredGo (p : Char → Bool) : List Char → List Char → List String
  | [], acc => [⟨acc.reverse⟩]
  | c :: rest, acc =>
      if p c then ⟨acc.reverse⟩ :: splitPredGo p rest []
      else splitPredGo p rest (c :: acc)

/-! ## Configuration (src/config.rs)

A compiled regex from the configuration is modelled as its matching
predicate (the external regex crate turns the configured pattern string
into exactly such a function).  HashMap/HashSet become association lists
and lists; lookups and membership are keyed by the same strings. -/

structure WindowCommandMapping where
  class_re : Option (String → Bool)
  title_re : Option (String → Bool)
  command : Option String
  working_directory : Option String
  once : Option Bool
  ignored : Option Bool

structure TerminalCommandMapping where
  name_re : Option (String → Bool)
  args_re : Option (String → Bool)
  command : Option String

structure Config where
  window_command_mappings : List WindowCommandMapping
  window_swallow_criteria : List (String × List String)
  terminal_allow_revive_processes : List String
  terminal_revive_commands : List (String × String)
  terminal_command_mappings : List TerminalCommandMapping

/-- src/config.rs lines 31-36: the fallback configuration value. -/
def default_config : Config :=
  { window_command_mappings := []
    window_swallow_criteria := []
    terminal_allow_revive_processes := []
    terminal_revive_commands := []
    terminal_command_mappings := [] }

/-- Outcome of `load_config`: either the global CONFIG is set to a value, or
the process aborts (a Rust panic from `.unwrap()`). -/
inductive LoadOutcome where
  | loaded (c : Config)
  | panicked

/-- src/config.rs lines 30-50, `load_config`.  `baseDirs` tells whether
`BaseDirs::new()` succeeded; `readConfigFile` is the result of
`fs::read_to_string` on the config path; `parseConfig` models
`serde_json::from_str::<Config>` from the external serde crate (`none` for a
malformed document).  Note the source calls `.unwrap()` on the parse result,
which panics when the file contents are present but malformed. -/
def load_config (baseDirs : Bool) (readConfigFile : Except String String)
    (parseConfig : String → Option Config) : LoadOutcome :=
  if baseDirs then
    match readConfigFile with
    | .ok content =>
        match parseConfig content with
        | some c => .loaded c
        | none => .panicked
    | .error _ => .loaded default_config
  else
    .loaded default_config

/-! ## CLI dispatch (src/main.rs lines 11-55) -/

/-- The action `main` takes after parsing its arguments.  `usageExit1`:
print the usage message and exit 1.  `todoRestoreExit1`: print
"TODO: restore command not implemented yet" and exit 1 (the source's
`restore` arm does nothing else).  `doSave` / `doRm` run the save / rm
paths. -/
inductive MainAction where
  | usageExit1
  | todoRestoreExit1
  | doSave
  | doRm
deriving DecidableEq, Repr

/-- src/main.rs lines 11-55, the argument dispatch of `main`. -/
def mainDispatch (args : List String) : MainAction :=
  if args.length ≠ 2 then .usageExit1
  else
    match args.get? 1 with
    | some "save" => .doSave
    | some "restore" => .todoRestoreExit1
    | some "rm" => .doRm
    | _ => .usageExit1

/-! ## IPC framing (src/i3ipc.rs) -/

/-- Kind of a modelled `io::Error`.  `unexpectedEof` is what
`read_exact` returns on a short read; `other` is `ErrorKind::Other`,
used by the source for the bad-magic error it builds by hand. -/
inductive IoErrorKind where
  | unexpectedEof
  | other
deriving DecidableEq, Repr

structure IoError where
  kind : IoErrorKind
  msg : String
deriving DecidableEq, Repr

/-- src/i3ipc.rs lines 14-22: the error type of request/response exchange.
There are exactly three variants; the `Receive` variant wraps any
`io::Error` produced while receiving, whether it came from the socket or
from the hand-built bad-magic error. -/
inductive MessageError where
  | send (e : IoError)
  | receive (e : IoError)
  | jsonCouldntParse (e : String)
deriving DecidableEq, Repr

/-- The 6 magic bytes "i3-ipc" (src/i3ipc.rs line 62 / 74). -/
def i3MagicBytes : List Nat := [105, 51, 45, 105, 112, 99]

/-- Little-endian u32 from 4 bytes. -/
def leU32 (b0 b1 b2 b3 : Nat) : Nat :=
  b0 + b1 * 256 + b2 * 65536 + b3 * 16777216

/-- src/i3ipc.rs lines 70-87, `receive_i3_message`.  The stream is the list
of bytes available to read; a `read_exact` past the end of it is the modelled
transport failure (UnexpectedEof).  On success returns
(message type, payload bytes, remaining stream).  The bad-magic branch
(lines 74-80) returns an `io::Error` with `ErrorKind::Other` and the
"unexpected magic string" text — the same `io::Result` error channel used
for transport failures. -/
def receive_i3_message (input : List Nat) :
    Except IoError (Nat × List Nat × List Nat) :=
  if input.length < 6 then
    .error ⟨.unexpectedEof, "failed to fill whole buffer"⟩
  else
    let magic_data := input.take 6
    if magic_data ≠ i3MagicBytes then
      .error ⟨.other, "unexpected magic string: expected i3-ipc"⟩
    else
      let rest := input.drop 6
      if rest.length < 8 then
        .error ⟨.unexpectedEof, "failed to fill whole buffer"⟩
      else
        let payload_len := leU32 (rest.get! 0) (rest.get! 1) (rest.get! 2) (rest.get! 3)
        let message_type := leU32 (rest.get! 4) (rest.get! 5) (rest.get! 6) (rest.get! 7)
        let body := rest.drop 8
        if body.length < payload_len then
          .error ⟨.unexpectedEof, "failed to fill whole buffer"⟩
        else
          .ok (message_type, body.take payload_len, body.drop payload_len)

/-- Result of `send_receive_i3_message`: a decoded value, a `MessageError`,
or a Rust panic (the `assert_eq!` on the received message type,
src/i3ipc.rs line 99). -/
inductive SendReceiveResult (α : Type) where
  | ok (v : α)
  | err (e : MessageError)
  | panicked
deriving DecidableEq, Repr

/-- src/i3ipc.rs lines 89-110, `send_receive_i3_message`.  `sendResult`
is the outcome of `send_i3_message` (a socket write); `parsePayload`
models `serde_json::from_str` on the received payload bytes. -/
def send_receive_i3_message {α : Type} (sendResult : Except IoError Unit)
    (message_type : Nat) (input : List Nat)
    (parsePayload : List Nat → Except String α) : SendReceiveResult α :=
  match sendResult with
  | .error e => .err (.send e)
  | .ok () =>
      match receive_i3_message input with
      | .error e => .err (.receive e)
      | .ok (received_type, payload, _) =>
          if message_type ≠ received_type then .panicked
          else
            match parsePayload payload with
            | .ok v => .ok v
            | .error e => .err (.jsonCouldntParse e)

/-! ## Restore orchestration (src/i3_tree.rs lines 121-212) -/

/-- src/i3_tree.rs lines 19-25, the capture-time window view. -/
structure Window where
  id : Nat
  name : String
  winClass : Option String
  is_placeholder : Bool
deriving DecidableEq, Repr

/-- A directory entry yielded by `fs::read_dir` on the layouts directory:
its file name and its full path, both already converted to strings. -/
structure DirEnt where
  file_name : String
  path : String
deriving DecidableEq, Repr

/-- src/i3_tree.rs line 164: the file-name regex `^ws_(.+).json$` with its
greedy capture.  A name matches iff it is `ws_` ++ capture ++ c ++ "json"
with a non-empty capture and any single character c (the unescaped dot);
the greedy `(.+)` makes the capture everything except the last five
characters. -/
def wsNameOfFile (f : String) : Option String :=
  if "ws_".data.isPrefixOf f.data then
    let r := f.data.drop 3
    if 6 ≤ r.length ∧ r.drop (r.length - 4) = "json".data then
      some ⟨r.take (r.length - 5)⟩
    else none
  else none

/-- src/i3_tree.rs lines 163-191, the `do_things` replay closure.
`run` is the oracle for `run_command` against the i3 socket (`.error`
models a `MessageError`, which `?` propagates).  Returns the closure's
result together with the list of i3 commands issued, in order.
`first_entry` starts as `true` (line 165). -/
def do_things (run : String → Except String Unit) :
    List DirEnt → Option String → Bool → Except String Unit × List String
  | [], _, _ => (.ok (), [])
  | e :: rest, focused, first_entry =>
      match wsNameOfFile e.file_name with
      | none => do_things run rest focused first_entry
      | some ws_name =>
          let wsCmd := "workspace " ++ ws_name
          let alCmd := "append_layout " ++ e.path
          -- line 181: `!first_entry || focused_workspace_name.is_none_or(|name| name != ws_name)`
          let needWs := !first_entry ||
            (match focused with
             | none => true
             | some name => name ≠ ws_name)
          if needWs then
            match run wsCmd with
            | .error err => (.error err, [wsCmd])
            | .ok () =>
                match run alCmd with
                | .error err => (.error err, [wsCmd, alCmd])
                | .ok () =>
                    let (res, trace) := do_things run rest focused false
                    (res, wsCmd :: alCmd :: trace)
          else
            match run alCmd with
            | .error err => (.error err, [alCmd])
            | .ok () =>
                let (res, trace) := do_things run rest focused false
                (res, alCmd :: trace)

/-- What `restore_workspaces` does after the layouts directory was found:
which window ids it kills (placeholders), unmaps, and later remaps, the
i3 commands it issues during replay, and whether it ends with
`std::process::exit(1)`. -/
structure RestoreOutcome where
  killed : List Nat
  unmapped : List Nat
  commands : List String
  remapped : List Nat
  exitsNonZero : Bool
deriving DecidableEq, Repr

/-- src/i3_tree.rs lines 121-212, `restore_workspaces` (after the
directory-existence precondition): suspend every captured window
(placeholders killed, others unmapped, lines 149-161), run the replay
closure over the directory entries (lines 163-191), remap every
non-placeholder window (lines 200-207), and exit non-zero iff `has_err`
(lines 193-198, 209-211).  Note the source sets `has_err` to `false`
in the `Err` branch and `true` in the success branch. -/
def restore_workspaces (windows : List Window) (entries : List DirEnt)
    (focused_workspace_name : Option String)
    (run : String → Except String Unit) : RestoreOutcome :=
  let killed := (windows.filter (fun w => w.is_placeholder)).map (fun w => w.id)
  let unmapped := (windows.filter (fun w => !w.is_placeholder)).map (fun w => w.id)
  let dt := do_things run entries focused_workspace_name true
  let has_err := match dt.1 with
    | .error _ => false
    | .ok () => true
  { killed := killed
    unmapped := unmapped
    commands := dt.2
    remapped := (windows.filter (fun w => !w.is_placeholder)).map (fun w => w.id)
    exitsNonZero := has_err }

/-! ## JSON tree model and layout conversion (src/i3_tree.rs lines 226-392)

`serde_json::Value` is modelled by `JVal`; objects are association lists
that keep serde's key/value pairs (i3 never reports duplicate keys).  The
numeric fields `convert_to_layout` inspects are integers, so `num` carries
an `Int`.  Rust panics from `.unwrap()` on absent keys or wrong JSON types
are modelled by `Option`, `none` meaning the process aborts. -/

inductive JVal where
  | null
  | jbool (b : Bool)
  | num (n : Int)
  | str (s : String)
  | arr (xs : List JVal)
  | obj (fields : List (String × JVal))

abbrev JObj := List (String × JVal)

-- A computable size of a JSON value, used to seed the recursion fuel of
-- convert_to_layout.
mutual

def jsize : JVal → Nat
  | .null => 1
  | .jbool _ => 1
  | .num _ => 1
  | .str _ => 1
  | .arr xs => 1 + jsizeArr xs
  | .obj fs => 1 + jsizeObj fs

def jsizeArr : List JVal → Nat
  | [] => 0
  | x :: xs => jsize x + jsizeArr xs

def jsizeObj : List (String × JVal) → Nat
  | [] => 0
  | (_, v) :: fs => jsize v + jsizeObj fs

end

def jget (o : JObj) (k : String) : Option JVal :=
  match o with
  | [] => none
  | (k', v) :: rest => if k' = k then some v else jget rest k

/-- serde_json Map::remove. -/
def jremove (o : JObj) (k : String) : JObj :=
  o.filter (fun p => p.1 ≠ k)

/-- serde_json Map::insert: replace in place when the key exists, else
append. -/
def jinsert (o : JObj) (k : String) (v : JVal) : JObj :=
  match o with
  | [] => [(k, v)]
  | (k', v') :: rest =>
      if k' = k then (k, v) :: rest else (k', v') :: jinsert rest k v

def JVal.asStr : JVal → Option String
  | .str s => some s
  | _ => none

def JVal.asArr : JVal → Option (List JVal)
  | .arr xs => some xs
  | _ => none

def JVal.asObj : JVal → Option JObj
  | .obj fs => some fs
  | _ => none

/-- Serde `Value::as_u64`: succeeds only on non-negative integers. -/
def JVal.asU64 : JVal → Option Nat
  | .num (.ofNat n) => some n
  | _ => none

def JVal.asI64 : JVal → Option Int
  | .num n => some n
  | _ => none

/-- Metacharacters escaped by `regex::escape` (the regex crate's
`is_meta_character`). -/
def isRegexMeta (c : Char) : Bool :=
  c = '\\' || c = '.' || c = '+' || c = '*' || c = '?' || c = '(' || c = ')' ||
  c = '|' || c = '[' || c = ']' || c = '\x7b' || c = '\x7d' || c = '^' ||
  c = '$' || c = '#' || c = '&' || c = '-' || c = '~'

/-- The function `regex::escape`: prefix every metacharacter with a backslash. -/
def regexEscape (s : String) : String :=
  ⟨s.data.foldr (fun c acc => if isRegexMeta c then '\\' :: c :: acc else c :: acc) []⟩

/-- src/i3_tree.rs lines 28-43: the attribute allow-list. -/
def ALLOWED_KEYS : List String :=
  ["type", "fullscreen_mode", "layout", "border", "current_border_width",
   "floating", "percent", "nodes", "floating_nodes", "name", "geometry",
   "window_properties", "marks", "rect"]

/-- src/i3_tree.rs lines 387-392, `is_zero_rect` (unwraps each field as
u64). -/
def is_zero_rect (o : JObj) : Option Bool := do
  let x ← (jget o "x").bind JVal.asU64
  let y ← (jget o "y").bind JVal.asU64
  let w ← (jget o "width").bind JVal.asU64
  let h ← (jget o "height").bind JVal.asU64
  pure (x = 0 && y = 0 && w = 0 && h = 0)

/-- src/i3_tree.rs lines 377-385, `is_leaf_node`. -/
def is_leaf_node (o : JObj) : Option Bool := do
  let ty ← (jget o "type").bind JVal.asStr
  let nodesEmpty ←
    match jget o "nodes" with
    | none => pure true
    | some v => (v.asArr).map List.isEmpty
  let floatingEmpty ←
    match jget o "floating_nodes" with
    | none => pure true
    | some v => (v.asArr).map List.isEmpty
  pure (ty = "con" && nodesEmpty && floatingEmpty)

/-- The title marker stored as the swallow title of a revivable-terminal
leaf (src/i3_tree.rs line 334). -/
def terminalSwallowTitle (id : Nat) : String :=
  "Terminal-Window-" ++ toString id

/-- src/i3_tree.rs lines 294-343: build the `swallows` criteria object of a
leaf from its `window_properties` object.  `leaf_node_id` is the value of
the node's `window` attribute (line 230). -/
def buildSwallows (cfg : Config) (props : JObj) (leaf_node_id : Option Nat) :
    Option JObj := do
  let (swallows1, criteria, is_terminal) ←
    match jget props "class" with
    | none => pure (([] : JObj), (none : Option (List String)), false)
    | some classV => do
        let cls ← classV.asStr
        let criteria := (cfg.window_swallow_criteria.find? (fun p => p.1 = cls)).map Prod.snd
        let swallows :=
          if (criteria.map (fun crit => crit.contains "class")).getD true then
            jinsert [] "class" (.str ("^" ++ regexEscape cls ++ "$"))
          else []
        pure (swallows, criteria,
          (cfg.terminal_revive_commands.find? (fun p => p.1 = cls)).isSome)
  let swallows2 ←
    match jget props "instance" with
    | none => pure swallows1
    | some instV =>
        if (criteria.map (fun crit => crit.contains "instance")).getD true then do
          let inst ← instV.asStr
          pure (jinsert swallows1 "instance" (.str ("^" ++ regexEscape inst ++ "$")))
        else pure swallows1
  let swallows3 ←
    match jget props "title" with
    | none => pure swallows2
    | some titleV => do
        let title ← titleV.asStr
        if (criteria.map (fun crit => crit.contains "title")).getD false then
          pure (jinsert swallows2 "title" (.str ("^" ++ regexEscape title ++ "$")))
        else if is_terminal then do
          -- line 334: `leaf_node_id.unwrap()`
          let wid ← leaf_node_id
          pure (jinsert swallows2 "title" (.str (terminalSwallowTitle wid)))
        else pure swallows2
  pure swallows3

/-- src/i3_tree.rs lines 232-234: layout is not relevant for a leaf
container. -/
def pruneLayout (is_leaf : Bool) (o : JObj) : JObj :=
  if is_leaf then jremove o "layout" else o

/-- src/i3_tree.rs lines 237-241: fullscreen_mode conveys no state when
it is 0 (the unwraps panic when it is missing or not a u64). -/
def pruneFullscreen (o : JObj) : Option JObj := do
  let fs ← (jget o "fullscreen_mode").bind JVal.asU64
  pure (if fs = 0 then jremove o "fullscreen_mode" else o)

/-- src/i3_tree.rs lines 243-246: names for non-leafs are
auto-generated. -/
def pruneName (is_leaf : Bool) (o : JObj) : JObj :=
  if !is_leaf then jremove o "name" else o

/-- src/i3_tree.rs lines 248-250: drop the all-zero geometry. -/
def pruneGeometry (o : JObj) : Option JObj := do
  let geo ← (jget o "geometry").bind JVal.asObj
  let zero ← is_zero_rect geo
  pure (if zero then jremove o "geometry" else o)

/-- src/i3_tree.rs lines 252-255: retain the rect only for floating
containers. -/
def pruneRect (o : JObj) : Option JObj := do
  let ty ← (jget o "type").bind JVal.asStr
  pure (if ty ≠ "floating_con" then jremove o "rect" else o)

/-- src/i3_tree.rs lines 257-265: drop the default border width
sentinel -1. -/
def pruneBorderWidth (o : JObj) : Option JObj := do
  let cbw ← (jget o "current_border_width").bind JVal.asI64
  pure (if cbw = -1 then jremove o "current_border_width" else o)

/-- src/i3_tree.rs lines 267-279: drop an empty child list (`nodes` or
`floating_nodes`); a present non-array child list panics. -/
def pruneEmptyChildren (key : String) (o : JObj) : Option JObj :=
  match jget o key with
  | none => pure o
  | some v => do
      let xs ← v.asArr
      pure (if xs.isEmpty then jremove o key else o)

/-- src/i3_tree.rs lines 281-289: strip every attribute not in the
allow-list. -/
def pruneAllowList (o : JObj) : JObj :=
  o.filter (fun p => ALLOWED_KEYS.contains p.1)

/-- src/i3_tree.rs lines 291-344: turn `window_properties` into
`swallows`, for leaf nodes only. -/
def attachSwallows (cfg : Config) (is_leaf : Bool) (leaf_node_id : Option Nat)
    (o : JObj) : Option JObj :=
  if is_leaf then
    match jget o "window_properties" with
    | none => pure o
    | some wp => do
        let props ← wp.asObj
        let swallows ← buildSwallows cfg props leaf_node_id
        pure (jinsert o "swallows" (.arr [.obj swallows]))
  else pure o

/-- src/i3_tree.rs lines 226-345: the per-node rewrite performed by
`convert_to_layout` before it recurses into children, assembled from the
per-statement steps above in source order. -/
def convert_node (cfg : Config) (tree : JVal) : Option JVal := do
  let tree_obj ← tree.asObj
  let is_tree_leaf_node ← is_leaf_node tree_obj
  let leaf_node_id := (jget tree_obj "window").bind JVal.asU64
  let o1 := pruneLayout is_tree_leaf_node tree_obj
  let o2 ← pruneFullscreen o1
  let o3 := pruneName is_tree_leaf_node o2
  let o4 ← pruneGeometry o3
  let o5 ← pruneRect o4
  let o6 ← pruneBorderWidth o5
  let o7 ← pruneEmptyChildren "nodes" o6
  let o8 ← pruneEmptyChildren "floating_nodes" o7
  let o9 := pruneAllowList o8
  let o10 ← attachSwallows cfg is_tree_leaf_node leaf_node_id o9
  -- window_properties removed afterwards (line 345)
  pure (.obj (jremove o10 "window_properties"))

/-- Recursion of `convert_to_layout` into `nodes` / `floating_nodes`
(src/i3_tree.rs lines 347-351 via `run_for_all_nodes_mut`).  `fuel`
bounds the recursion depth so the definition is total; the entry point
passes `sizeOf tree`, which dominates the tree's depth, so the `fuel = 0`
case is never reached from `convert_to_layout`. -/
def convert_go (cfg : Config) : Nat → JVal → Option JVal
  | 0, _ => none
  | fuel + 1, tree => do
      let t ← convert_node cfg tree
      let o ← t.asObj
      let o1 ←
        match jget o "nodes" with
        | none => pure o
        | some v => do
            let xs ← v.asArr
            let xs' ← xs.mapM (convert_go cfg fuel)
            pure (jinsert o "nodes" (.arr xs'))
      let o2 ←
        match jget o1 "floating_nodes" with
        | none => pure o1
        | some v => do
            let xs ← v.asArr
            let xs' ← xs.mapM (convert_go cfg fuel)
            pure (jinsert o1 "floating_nodes" (.arr xs'))
      pure (.obj o2)

/-- src/i3_tree.rs lines 226-352, `convert_to_layout`. -/
def convert_to_layout (cfg : Config) (tree : JVal) : Option JVal :=
  convert_go cfg (jsize tree) tree

/-! ## Process capture (src/process.rs)

The operating-system surface (/proc reads, the X `_NET_WM_PID` property,
file executability) and the external shlex crate are oracles collected in
`ProcEnv`; every piece of logic of src/process.rs itself is translated
below.  `Except String` carries both Rust `Err` results and Rust panics
(`unwrap`/`expect`), since at every call site of the functions involved a
panic and an unwrapped `Err` alike abort the whole capture. -/

structure ProcEnv where
  /-- `get_pid` (src/process.rs lines 22-47): the X server lookup of the
  window's `_NET_WM_PID` property. -/
  getPid : Nat → Except String Nat
  /-- `fs::read_to_string("/proc/<pid>/cmdline")`, keyed by the pid text. -/
  readCmdline : String → Except String String
  /-- `path.exists() && path.is_file() && is_executable(path)`
  (src/process.rs lines 50-57 plus the two std path tests). -/
  execCheck : String → Bool
  /-- `fs::read_link("/proc/<pid>/cwd")` as a string. -/
  readLinkCwd : String → Except String String
  /-- `fs::read_to_string("/proc/<pid>/task/<pid>/children")`. -/
  readChildren : String → Except String String
  /-- `fs::read_to_string("/proc/<pid>/stat")`. -/
  readStat : String → Except String String
  /-- `Path::new("/tmp/i3-revive/<window id>").exists()`. -/
  markerExists : String → Bool
  /-- `shlex::split`. -/
  shlexSplit : String → Option (List String)
  /-- `shlex::try_join`. -/
  shlexJoin : List String → Option String
  /-- `shlex::try_quote`. -/
  shlexQuote : String → Option String

/-- Rust `str::split_whitespace`: the non-empty maximal runs between
whitespace. -/
def splitWs (s : String) : List String :=
  (splitPredGo Char.isWhitespace s.data []).filter (fun p => p ≠ "")

/-- Rust `trim_matches` with NUL (src/process.rs line 67). -/
def trimNulls (s : String) : String :=
  ⟨((s.data.dropWhile (fun c => c = '\x00')).reverse.dropWhile
      (fun c => c = '\x00')).reverse⟩

/-- src/process.rs lines 66-70: trim the NULs and split on NUL. -/
def splitNulls (s : String) : List String :=
  splitOnChar '\x00' (trimNulls s)

/-- Rust `rsplit_once` on a slash, keeping the tail (src/process.rs
lines 128-131): the part after the last slash. -/
def afterLastSlash (s : String) : String :=
  match s.data.reverse.findIdx? (fun c => c = '/') with
  | some k => ⟨(s.data.reverse.take k).reverse⟩
  | none => s

/-- Substring containment, `str::contains` with a literal pattern. -/
def strContainsGo (needle : List Char) : List Char → Bool
  | [] => needle.isEmpty
  | c :: rest => needle.isPrefixOf (c :: rest) || strContainsGo needle rest

def strContains (hay needle : String) : Bool :=
  strContainsGo needle.data hay.data

/-- First capture of the regex `Revive-Terminal-Window-(\d+)`
(src/process.rs lines 151-158): at the leftmost position where the
literal is followed by at least one digit, the maximal digit run. -/
def captureWindowIdGo : List Char → Option String
  | [] => none
  | c :: rest =>
      if ("Revive-Terminal-Window-".data).isPrefixOf (c :: rest) then
        let after := (c :: rest).drop "Revive-Terminal-Window-".length
        let ds := after.takeWhile Char.isDigit
        if ds.isEmpty then captureWindowIdGo rest else some ⟨ds⟩
      else captureWindowIdGo rest

def captureWindowId (s : String) : Option String :=
  captureWindowIdGo s.data

/-- src/process.rs lines 175-183: the field of `/proc/<pid>/stat` five
whitespace-separated tokens after the last `)` (the tpgid field), parsed
as a number; `none` is any of the `unwrap` panics on that line. -/
def statField5AfterParen (stat : String) : Option Nat := do
  let k ← stat.data.reverse.findIdx? (fun c => c = ')')
  let after := (stat.data.reverse.take k).reverse
  let f ← (splitWs ⟨after⟩).get? 5
  strToNat? f

/-- Does the regex `\{(\d+)\}` match somewhere in the template
(src/process.rs line 368's `re.is_match`)? -/
def hasInterpGo : List Char → Bool
  | [] => false
  | c :: rest =>
      (c = '\x7b' &&
        !(rest.takeWhile Char.isDigit).isEmpty &&
        (match rest.drop (rest.takeWhile Char.isDigit).length with
         | '\x7d' :: _ => true
         | _ => false)) || hasInterpGo rest

def hasInterp (s : String) : Bool := hasInterpGo s.data

/-- Rust `re.replace_all` for the regex `\{(\d+)\}` (src/process.rs
lines 235-241 and 367-377): each `{n}` becomes the shell-quoted n-th
element of `argv`, or the empty string when the index is out of range;
`none` models the panic of `try_quote(..).unwrap()` inside the
replacement closure. -/
def interpolateGo (argv : List String) (quote : String → Option String) :
    List Char → Option (List Char)
  | [] => some []
  | c :: rest =>
      if c = '\x7b' then
        let ds := rest.takeWhile Char.isDigit
        if ds.isEmpty then (interpolateGo argv quote rest).map (c :: ·)
        else
          match h : rest.drop ds.length with
          | '\x7d' :: rest' =>
              let idx := digitsToNat ds
              (match argv.get? idx with
               | some s =>
                   (quote s).bind (fun q =>
                     (interpolateGo argv quote rest').map (fun t => q.data ++ t))
               | none => interpolateGo argv quote rest')
          | _ => (interpolateGo argv quote rest).map (c :: ·)
      else (interpolateGo argv quote rest).map (c :: ·)
termination_by l => l.length
decreasing_by
  all_goals first
    | (have hlen := congrArg List.length h
       simp [List.length_drop] at hlen
       simp only [List.length_cons]
       omega)
    | (simp only [List.length_cons]; omega)

def interpolate (template : String) (argv : List String)
    (quote : String → Option String) : Option String :=
  (interpolateGo argv quote template.data).map List.asString

/-- src/process.rs lines 60-98, `get_process_cmd`: read and split the
process's cmdline; when the kernel exposes a single blob, greedily extend
a candidate executable path one space-separated token at a time until an
existing executable regular file is found. -/
def buildExecutable (check : String → Bool) :
    String → List String → String × List String
  | acc, [] => (acc, [])
  | acc, p :: rest =>
      let acc' := if acc = "" then p else acc ++ " " ++ p
      if check acc' then (acc', rest) else buildExecutable check acc' rest

def get_process_cmd (env : ProcEnv) (pid : Nat) :
    Except String (List String) :=
  match env.readCmdline (toString pid) with
  | .error err => .error err
  | .ok raw_cmd =>
      let cmd_parts := splitNulls raw_cmd
      if cmd_parts.length ≠ 1 then .ok cmd_parts
      else
        let raw := cmd_parts.headD ""
        let (executable, rest) := buildExecutable env.execCheck "" (splitOnChar ' ' raw)
        .ok (executable :: rest)

/-- src/process.rs lines 278-293, `get_process_cwd`. -/
def get_process_cwd (env : ProcEnv) (pid : Nat) (is_terminal : Bool) :
    Except String String := do
  let path ← env.readLinkCwd (toString pid)
  if is_terminal then do
    let children ← env.readChildren (toString pid)
    match (splitWs children).head? with
    | some first_child_pid => env.readLinkCwd first_child_pid
    | none => pure path
  else pure path

/-- src/process.rs lines 207-231: the terminal command-mapping scoring
loop.  A mapping only counts when every pattern it declares matches
(name weight 2, args weight 1); a strictly higher score replaces the
current best, so ties keep the first-declared mapping and a zero score
never wins. -/
def selectTerminalMappingGo (program args_str : String) :
    List TerminalCommandMapping → Nat → Option TerminalCommandMapping →
    Option TerminalCommandMapping
  | [], _, cur => cur
  | m :: rest, best, cur =>
      let score? : Option Nat := do
        let s1 ←
          match m.name_re with
          | some p => if p program then some 2 else none
          | none => some 0
        let s2 ←
          match m.args_re with
          | some p => if p args_str then some 1 else none
          | none => some 0
        pure (s1 + s2)
      match score? with
      | none => selectTerminalMappingGo program args_str rest best cur
      | some s =>
          if s > best then selectTerminalMappingGo program args_str rest s (some m)
          else selectTerminalMappingGo program args_str rest best cur

def selectTerminalMapping (mappings : List TerminalCommandMapping)
    (program args_str : String) : Option TerminalCommandMapping :=
  selectTerminalMappingGo program args_str mappings 0 none

/-- src/process.rs lines 132-250, the `get_process_cmd_parts` closure of
`get_terminal_process_cmd`.  `Ok none` is "fallback to normal revival /
no foreground program"; `.error` covers both `Err` returns and the
panics of the inline `unwrap`s. -/
def get_process_cmd_parts (cfg : Config) (env : ProcEnv) (shell_pid : String)
    (shell_cmd_parts : List String) (shell_name : String) :
    Except String (Option (List String)) := do
  if shell_name ≠ "bash" && shell_name ≠ "zsh" && shell_name ≠ "fish" &&
      shell_name ≠ "sh" then
    pure none
  else
    let is_revived_shell := shell_cmd_parts.get? 1 = some "-c" &&
      (match shell_cmd_parts.get? 2 with
       | some a => strContains a "Revive-Terminal-Window-"
       | none => false)
    if shell_cmd_parts.length > 1 && !is_revived_shell then
      pure none
    else do
      let revived_shell_window_id ←
        if is_revived_shell then
          match captureWindowId ((shell_cmd_parts.get? 2).getD "") with
          | some d => pure d
          | none => Except.error "panic: no window id in revived shell command"
        else pure ""
      let fg_process_pid ←
        if is_revived_shell && !env.markerExists revived_shell_window_id then do
          let children ← env.readChildren shell_pid
          match (splitWs children).head? with
          | none => Except.error "panic: shell has no child"
          | some c =>
              match strToNat? c with
              | some n => pure n
              | none => Except.error "panic: child pid parse"
        else do
          let stat ← env.readStat shell_pid
          match statField5AfterParen stat with
          | some n => pure n
          | none => Except.error "panic: stat parse"
      let shell_pid_nat ←
        match strToNat? shell_pid with
        | some n => pure n
        | none => Except.error "panic: shell pid parse"
      if fg_process_pid = shell_pid_nat then
        pure none
      else
        match get_process_cmd env fg_process_pid with
        | .error _ => pure none
        | .ok fg0 =>
            if (fg0.head?.map
                  (fun proc => cfg.terminal_allow_revive_processes.contains proc)).getD
                true then do
              let (program, args) ←
                match fg0 with
                | [] => Except.error "panic: split_first on empty command"
                | p :: a => pure (p, a)
              let args_str ←
                match env.shlexJoin args with
                | some j => pure j
                | none => Except.error "panic: try_join args"
              let fg ←
                match selectTerminalMapping cfg.terminal_command_mappings
                    program args_str with
                | some m =>
                    match m.command with
                    | some command_str =>
                        match interpolate command_str fg0 env.shlexQuote with
                        | none => Except.error "panic: try_quote"
                        | some ic =>
                            match env.shlexSplit ic with
                            | some parts => pure parts
                            | none => Except.error "panic: split of interpolated command"
                    | none => pure fg0
                | none => pure fg0
              pure (some fg)
            else pure none

/-- src/process.rs lines 263-268: the command string handed to the
terminal's shell via `-c`; it first echoes the window-title marker, then
sleeps, then runs the interactive invocation, then exec-replaces itself
with a plain shell. -/
def process_with_title_cmd (window_id : Nat) (interactive shell_cmd : String) :
    String :=
  "echo -ne \"\\033]0;Revive-Terminal-Window-" ++ toString window_id ++
    "\\007\"; sleep 0.5; " ++ interactive ++ "; exec " ++ shell_cmd

/-- src/process.rs lines 100-276, `get_terminal_process_cmd`. -/
def get_terminal_process_cmd (cfg : Config) (env : ProcEnv) (pid : Nat)
    (window_id : Nat) (terminal_command : String) :
    Except String (List String) := do
  let childrenStr ← env.readChildren (toString pid)
  let shell_pid ←
    match (splitWs childrenStr).head? with
    | some s => pure s
    | none => Except.error "panic: terminal has no child process"
  let raw_shell_cmd ← env.readCmdline shell_pid
  let shell_cmd_parts := splitNulls raw_shell_cmd
  if shell_cmd_parts.isEmpty then
    Except.error "Shell command not found"
  else do
    let shell_cmd := shell_cmd_parts.headD ""
    let shell_name := afterLastSlash shell_cmd
    let parts? ← get_process_cmd_parts cfg env shell_pid shell_cmd_parts shell_name
    let inner ←
      match parts? with
      | some parts =>
          match env.shlexJoin parts with
          | some j => pure j
          | none => Except.error "panic: try_join of foreground command"
      | none => pure "true"
    let process_cmd := inner ++
      "; mkdir /tmp/i3-revive > /dev/null; touch /tmp/i3-revive/" ++
      toString window_id ++ " > /dev/null"
    let interactive_cmd_parts := [shell_cmd, "-i", "-c", process_cmd]
    let ij ←
      match env.shlexJoin interactive_cmd_parts with
      | some j => pure j
      | none => Except.error "panic: try_join of interactive command"
    let pwt := process_with_title_cmd window_id ij shell_cmd
    let cmd_parts := [shell_cmd, "-c", pwt]
    let cj ←
      match env.shlexJoin cmd_parts with
      | some j => pure j
      | none => Except.error "panic: try_join of shell command"
    match env.shlexSplit (terminal_command.replace "\x7bcmd\x7d" cj) with
    | some parts => pure parts
    | none => Except.error ("Invalid terminal command: " ++ terminal_command)

/-- src/process.rs lines 16-20, the persisted record. -/
structure Process where
  command : List String
  working_directory : String
deriving DecidableEq, Repr

/-- src/process.rs lines 317-349: the window command-mapping scoring loop
(title weight 2, class weight 1, every declared pattern must match, a
strictly higher score replaces the best, ties keep the first-declared
mapping).  Returns the winning mapping together with its declaration
index, which is what the `once` bookkeeping stores. -/
def selectWindowMappingGo (w_name : String) (w_class : Option String) :
    List (Nat × WindowCommandMapping) → Nat →
    Option (Nat × WindowCommandMapping) → Option (Nat × WindowCommandMapping)
  | [], _, cur => cur
  | (i, m) :: rest, best, cur =>
      let score? : Option Nat := do
        let s1 ←
          match m.title_re with
          | some p => if p w_name then some 2 else none
          | none => some 0
        let s2 ←
          match m.class_re with
          | some p => if (w_class.map p).getD false then some 1 else none
          | none => some 0
        pure (s1 + s2)
      match score? with
      | none => selectWindowMappingGo w_name w_class rest best cur
      | some s =>
          if s > best then selectWindowMappingGo w_name w_class rest s (some (i, m))
          else selectWindowMappingGo w_name w_class rest best cur

def selectWindowMapping (mappings : List WindowCommandMapping) (w : Window) :
    Option (Nat × WindowCommandMapping) :=
  selectWindowMappingGo w.name w.winClass mappings.enum 0 none

/-- src/process.rs lines 366-401: build the `Process` record of a window
once its pid is known and the command mapping (if any) has passed the
ignored/once gates.  `mcommand`/`mwd` are the matched mapping's optional
command template and working directory (both `none` when no mapping
matched).  The final `unwrap`s on `get_terminal_process_cmd`,
`get_process_cmd` and `get_process_cwd` panic on failure, which aborts
the whole capture — modelled by `.error`. -/
def finishWindow (cfg : Config) (env : ProcEnv) (pid : Nat) (w : Window)
    (once' : List Nat) (mcommand mwd : Option String) :
    Except String (List Nat × Option Process) := do
  let command : Option (List String) ←
    match mcommand with
    | none => pure none
    | some command_str => do
        let interpolated : Option String ←
          if hasInterp command_str then
            match get_process_cmd env pid with
            | .ok original_cmd_parts =>
                match interpolate command_str original_cmd_parts env.shlexQuote with
                | some ic => pure (some ic)
                | none => Except.error "panic: try_quote"
            | .error _ => pure none
          else pure none
        pure (env.shlexSplit (interpolated.getD command_str))
  let terminal_command := w.winClass.bind (fun cls =>
    (cfg.terminal_revive_commands.find? (fun p => p.1 = cls)).map Prod.snd)
  let cmd ←
    match command with
    | some c => pure c
    | none =>
        match terminal_command with
        | some tc => get_terminal_process_cmd cfg env pid w.id tc
        | none => get_process_cmd env pid
  let wd ←
    match mwd with
    | some d => pure d
    | none => get_process_cwd env pid terminal_command.isSome
  pure (once', some ⟨cmd, wd⟩)

/-- src/process.rs lines 300-402: the per-window body of the
`filter_map` in `save_processes`.  `once_mappings` is the mutable
`HashSet` of already-used `once` mapping indices, threaded through as
state.  `.ok (set, none)` is a dropped window, `.error` a panic that
aborts the capture. -/
def processWindow (cfg : Config) (env : ProcEnv) (once_mappings : List Nat)
    (w : Window) : Except String (List Nat × Option Process) :=
  if w.is_placeholder then .ok (once_mappings, none)
  else
    match env.getPid w.id with
    | .error _ => .ok (once_mappings, none)
    | .ok pid =>
        match selectWindowMapping cfg.window_command_mappings w with
        | some (i, m) =>
            if m.ignored.getD false then .ok (once_mappings, none)
            else if m.once.getD false then
              if once_mappings.contains i then .ok (once_mappings, none)
              else finishWindow cfg env pid w (i :: once_mappings) m.command
                m.working_directory
            else finishWindow cfg env pid w once_mappings m.command
              m.working_directory
        | none => finishWindow cfg env pid w once_mappings none none

/-- The fold of `save_processes` over the window list (src/process.rs
lines 299-403), collecting the surviving records in order. -/
def save_loop (cfg : Config) (env : ProcEnv) :
    List Nat → List Window → Except String (List Process)
  | _, [] => .ok []
  | once_mappings, w :: ws =>
      match processWindow cfg env once_mappings w with
      | .error e => .error e
      | .ok (once', r?) =>
          match save_loop cfg env once' ws with
          | .error e => .error e
          | .ok l => .ok (match r? with | some r => r :: l | none => l)

/-- src/process.rs lines 295-414, `save_processes` (the record-building
part; serialization and the file write that follow are external I/O).
`.error` means the capture aborted with a panic and nothing was saved. -/
def save_processes (cfg : Config) (env : ProcEnv) (windows : List Window) :
    Except String (List Process) :=
  save_loop cfg env [] windows

/-! ## Concrete scenarios used by the theorems below -/

/-- A replay-command oracle for which every i3 command succeeds. -/
def runOk : String → Except String Unit := fun _ => .ok ()

/-- A replay-command oracle for which every i3 command fails with a
transport error. -/
def runFail : String → Except String Unit := fun _ => .error "connection reset"

def c1windows : List Window := [⟨10, "stale", none, true⟩, ⟨11, "term", none, false⟩]

def c4entries : List DirEnt :=
  [⟨"ws_1.json", "/data/ws_1.json"⟩, ⟨"ws_2.json", "/data/ws_2.json"⟩,
   ⟨"ws_3.json", "/data/ws_3.json"⟩]

/-- Modelled from the spec (§4.5 Replay, claim C4): the command sequence
the claim asserts — the matching directory entries in listing order except
that the entry matching the previously-focused workspace is moved last,
with a `workspace` switch before each `append_layout` unless the entry is
the very first one and already matches the currently focused workspace.
This is the claim's statement, to be compared with the source's
`do_things`. -/
def specCmds : List (String × String) → Option String → Bool → List String
  | [], _, _ => []
  | (n, p) :: rest, focused, isFirst =>
      (if isFirst && focused = some n then [] else ["workspace " ++ n]) ++
        ("append_layout " ++ p) :: specCmds rest focused false

/-- Modelled from the spec (§4.5 Replay, claim C4): see `specCmds`.
`prevFocused = none` yields the plain directory-listing order. -/
def claimReplayCommands (entries : List DirEnt) (prevFocused : Option String)
    (focusedNow : Option String) : List String :=
  let named := entries.filterMap
    (fun e => (wsNameOfFile e.file_name).map (fun n => (n, e.path)))
  let reordered :=
    match prevFocused with
    | none => named
    | some pf => (named.filter (fun q => q.1 ≠ pf)) ++
        (named.filter (fun q => q.1 = pf))
  specCmds reordered focusedNow true

/-- A malformed-prefix message: its first 6 bytes are not "i3-ipc". -/
def c6badStream : List Nat :=
  [120, 51, 45, 105, 112, 99, 0, 0, 0, 0, 0, 0, 0, 0]

def c6parse : List Nat → Except String Unit := fun _ => .error "unused"

/-- A process environment in which every window's pid resolves and every
/proc read succeeds, with distinctive answers per pid. -/
def envAuto : ProcEnv :=
  { getPid := fun wid => .ok (100 + wid)
    readCmdline := fun p => .ok ("auto" ++ p ++ "\x00arg\x00")
    execCheck := fun _ => false
    readLinkCwd := fun p => .ok ("/home/" ++ p)
    readChildren := fun _ => .error "no children"
    readStat := fun _ => .error "no stat"
    markerExists := fun _ => false
    shlexSplit := fun s => some (splitWs s)
    shlexJoin := fun l => some (String.intercalate " " l)
    shlexQuote := fun s => some s }

/-- Like `envAuto`, but reading /proc/101/cmdline fails — the process of
window 1 exited between the pid lookup and the metadata read. -/
def envCmdlineFail : ProcEnv :=
  { envAuto with
    readCmdline := fun p =>
      if p = "101" then .error "No such file or directory (os error 2)"
      else .ok ("auto" ++ p ++ "\x00arg\x00") }

/-- Like `envAuto`, but window 1 carries no `_NET_WM_PID` property. -/
def envPidFail : ProcEnv :=
  { envAuto with
    getPid := fun wid =>
      if wid = 1 then .error "Window has no pid" else .ok (100 + wid) }

def wA : Window := ⟨1, "t1", some "X", false⟩
def wB : Window := ⟨2, "t2", some "X", false⟩

/-- A `once` window command mapping whose class pattern matches class
"X". -/
def onceMapping : WindowCommandMapping :=
  { class_re := some (fun c => c = "X")
    title_re := none
    command := some "foo"
    working_directory := some "/wd1"
    once := some true
    ignored := none }

def cfgOnce : Config := { default_config with window_command_mappings := [onceMapping] }

/-- A mapping declaring neither pattern, but carrying a command, working
directory, `once` and `ignored` — none of which is ever applied. -/
def patternlessMapping : WindowCommandMapping :=
  { class_re := none
    title_re := none
    command := some "never"
    working_directory := some "/never"
    once := some true
    ignored := some true }

def cfgPatternless : Config :=
  { default_config with window_command_mappings := [patternlessMapping] }

def zeroRect : JVal :=
  .obj [("x", .num 0), ("y", .num 0), ("width", .num 0), ("height", .num 0)]

/-- The `window_properties` object of a leaf with the given class,
instance and title. -/
def leafWindowProps (cls inst ttl : String) : JObj :=
  [("class", .str cls), ("instance", .str inst), ("title", .str ttl)]

/-- A representative leaf node as i3 reports it: kind `con`, no children,
all optional attributes at their default values, carrying a window id and
window properties. -/
def mkLeafNode (cls inst ttl : String) (id : Nat) : JVal :=
  .obj [("id", .num 94), ("type", .str "con"), ("orientation", .str "none"),
        ("percent", .num 1), ("layout", .str "splith"), ("border", .str "normal"),
        ("current_border_width", .num (-1)), ("rect", zeroRect),
        ("window_rect", zeroRect), ("geometry", zeroRect),
        ("name", .str ttl), ("window", .num (.ofNat id)),
        ("window_properties", .obj (leafWindowProps cls inst ttl)),
        ("nodes", .arr []), ("floating_nodes", .arr []),
        ("fullscreen_mode", .num 0), ("marks", .arr [])]

/-- The pruned attribute list of `mkLeafNode` just before swallow
synthesis (after the default-value drops and the allow-list filter). -/
def prunedLeafFields (cls inst ttl : String) : JObj :=
  [("type", .str "con"), ("percent", .num 1), ("border", .str "normal"),
   ("name", .str ttl), ("window_properties", .obj (leafWindowProps cls inst ttl)),
   ("marks", .arr [])]

/-- Terminal revive configuration used by the C9 witness. -/
def cfgTerm : Config :=
  { default_config with
    terminal_revive_commands := [("Alacritty", "alacritty -e \x7bcmd\x7d")] }

/-! ## Claim theorems -/

/-- C2.
Invoking the program with the `restore` subcommand does **not** perform the
restore sequence: src/main.rs lines 39-42 print
"TODO: restore command not implemented yet" and exit 1, and none of
`restore_workspaces` / `restore_processes` / `restore_metadata` is called.
This evaluates the argument dispatch at the failing input
`["i3-revive", "restore"]`. -/
theorem c2_restore_subcommand_not_implemented :
    mainDispatch ["i3-revive", "restore"] = MainAction.todoRestoreExit1 := rfl

/-- C1, evaluation at the failing inputs.
The claim says restore exits non-zero when a Replay command fails and not
when all succeed.  The source (src/i3_tree.rs lines 193-198) assigns
`has_err = false` in the error branch and `true` in the success branch and
then exits 1 iff `has_err`, so the exit status is inverted: a failed replay
exits zero, a fully successful replay exits 1.  The Resume step does still
remap the unmapped (non-placeholder) window in both cases. -/
theorem c1_replay_exit_status_inverted :
    (restore_workspaces c1windows c4entries none runFail).remapped = [11] ∧
    (restore_workspaces c1windows c4entries none runFail).exitsNonZero = false ∧
    (restore_workspaces c1windows c4entries none runOk).remapped = [11] ∧
    (restore_workspaces c1windows c4entries none runOk).exitsNonZero = true :=
  ⟨rfl, rfl, rfl, rfl⟩

/-- C4, counterexample.
With layout files for workspaces 1, 2, 3 in directory order, previously
focused workspace "2" and currently focused workspace "2", the code's
replay (src/i3_tree.rs lines 163-191) issues commands in plain
directory-listing order — the entry for the previously-focused workspace
is **not** moved last — so the issued sequence differs from the one the
claim asserts. -/
theorem c4_focused_workspace_not_moved_last :
    (restore_workspaces c1windows c4entries (some "2") runOk).commands =
      ["workspace 1", "append_layout /data/ws_1.json",
       "workspace 2", "append_layout /data/ws_2.json",
       "workspace 3", "append_layout /data/ws_3.json"] ∧
    claimReplayCommands c4entries (some "2") (some "2") =
      ["workspace 1", "append_layout /data/ws_1.json",
       "workspace 3", "append_layout /data/ws_3.json",
       "workspace 2", "append_layout /data/ws_2.json"] ∧
    (restore_workspaces c1windows c4entries (some "2") runOk).commands ≠
      claimReplayCommands c4entries (some "2") (some "2") := by
  refine ⟨rfl, rfl, ?_⟩
  decide

/-- C5, counterexample.
When the configuration file is readable but its contents are malformed
JSON (here: a parse function that rejects the content, as
`serde_json::from_str::<Config>` does on `"\x7b"`), `load_config`
panics on the `.unwrap()` at src/config.rs line 41 instead of falling back
to the default configuration — loading **is** fatal in that state. -/
theorem c5_malformed_config_panics :
    load_config true (.ok "\x7b") (fun _ => none) = LoadOutcome.panicked := rfl

/-- C5, amended: when the base directories are unavailable or the
configuration file cannot be read (missing file), `load_config` does fall
back to the empty/default configuration and is not fatal; only the
malformed-content case panics (see the counterexample). -/
theorem c5_missing_config_falls_back_to_default
    (e : String) (r : Except String String) (parse : String → Option Config) :
    load_config true (.error e) parse = LoadOutcome.loaded default_config ∧
    load_config false r parse = LoadOutcome.loaded default_config :=
  ⟨rfl, rfl⟩



/-- C6, counterexample.
A bad-magic response and a genuine transport failure (an empty stream,
i.e. a short read) are both reported through the **same**
`MessageError.receive` constructor wrapping an `io::Error` — the error
type (src/i3ipc.rs lines 14-22) has no ProtocolError variant, so a caller
matching on the error cannot distinguish a bad-magic failure from a
socket receive failure. -/
theorem c6_bad_magic_not_distinct_from_io_error :
    send_receive_i3_message (α := Unit) (.ok ()) 0 c6badStream c6parse =
      .err (.receive ⟨.other, "unexpected magic string: expected i3-ipc"⟩) ∧
    send_receive_i3_message (α := Unit) (.ok ()) 0 [] c6parse =
      .err (.receive ⟨.unexpectedEof, "failed to fill whole buffer"⟩) :=
  ⟨rfl, rfl⟩

/-- C6, amended: when a received message's first 6 bytes are not the magic
token "i3-ipc", receiving fails with a hand-built `io::Error` (kind
`Other`, bad-magic text) surfaced through the same `MessageError::Receive`
variant as transport receive failures — not a distinct ProtocolError —
and the message is never successfully decoded. -/
theorem c6_bad_magic_always_receive_error
    {α : Type} (input : List Nat) (mt : Nat) (parse : List Nat → Except String α)
    (hlen : 6 ≤ input.length) (hmagic : input.take 6 ≠ i3MagicBytes) :
    receive_i3_message input =
      .error ⟨.other, "unexpected magic string: expected i3-ipc"⟩ ∧
    send_receive_i3_message (.ok ()) mt input parse =
      .err (.receive ⟨.other, "unexpected magic string: expected i3-ipc"⟩) := by
  have hrecv : receive_i3_message input =
      .error ⟨.other, "unexpected magic string: expected i3-ipc"⟩ := by
    unfold receive_i3_message
    rw [if_neg (by omega), if_pos hmagic]
  refine ⟨hrecv, ?_⟩
  unfold send_receive_i3_message
  rw [hrecv]

/-- C6 witness: the amended theorem applied to the concrete bad-magic
stream. -/
theorem c6_bad_magic_always_receive_error_witness :
    receive_i3_message c6badStream =
      .error ⟨.other, "unexpected magic string: expected i3-ipc"⟩ ∧
    send_receive_i3_message (.ok ()) 0 c6badStream c6parse =
      .err (.receive ⟨.other, "unexpected magic string: expected i3-ipc"⟩) :=
  c6_bad_magic_always_receive_error c6badStream 0 c6parse (by decide) (by decide)



/-- C3, counterexample.
Window 1's pid resolves but the subsequent read of its
/proc/&lt;pid&gt;/cmdline fails (the process exited mid-capture).  The claim
says this drops only window 1's record and capture continues, producing
window 2's record; instead `save_processes` panics on the `.unwrap()` at
src/process.rs line 397 and the whole capture aborts — no record is
produced for any window. -/
theorem c3_metadata_read_failure_aborts_capture :
    save_processes default_config envCmdlineFail [wA, wB] =
      .error "No such file or directory (os error 2)" := rfl

/-- Helper for C3: a window whose per-window step is a no-op (state
unchanged, no record, no abort) can be removed from the capture list
without changing the result. -/
theorem save_loop_skip (cfg : Config) (env : ProcEnv) (w : Window)
    (hskip : ∀ once, processWindow cfg env once w = .ok (once, none)) :
    ∀ (ws1 ws2 : List Window) (once : List Nat),
      save_loop cfg env once (ws1 ++ w :: ws2) =
        save_loop cfg env once (ws1 ++ ws2) := by
  intro ws1
  induction ws1 with
  | nil =>
      intro ws2 once
      simp only [List.nil_append, save_loop, hskip]
      cases h : save_loop cfg env once ws2 <;> simp [h]
  | cons w' ws1 ih =>
      intro ws2 once
      simp only [List.cons_append, save_loop]
      cases h : processWindow cfg env once w' with
      | error e => rfl
      | ok p =>
          obtain ⟨once', r?⟩ := p
          simp only [List.append_eq, ih]

/-- C3, amended: a missing owning-process id (a failing `_NET_WM_PID`
lookup) only drops that single window's process record — with a logged
warning, src/process.rs lines 306-311 — and the capture continues,
producing exactly the records of the remaining windows.  (By the
counterexample, the same is *not* true of process-metadata read or argv
reconstruction failures after the pid was found: those panic and abort
the whole capture.) -/
theorem c3_missing_pid_drops_only_that_window (cfg : Config) (env : ProcEnv)
    (w : Window) (ws1 ws2 : List Window) (e : String)
    (hpl : w.is_placeholder = false)
    (hpid : env.getPid w.id = .error e) :
    save_processes cfg env (ws1 ++ w :: ws2) = save_processes cfg env (ws1 ++ ws2) := by
  have hskip : ∀ once, processWindow cfg env once w = .ok (once, none) := by
    intro once
    simp [processWindow, hpl, hpid]
  exact save_loop_skip cfg env w hskip ws1 ws2 []

/-- C3 witness: with window 1's pid lookup failing and window 2 intact,
the capture equals the capture of window 2 alone. -/
theorem c3_missing_pid_drops_only_that_window_witness :
    save_processes default_config envPidFail [wA, wB] =
      save_processes default_config envPidFail [wB] :=
  c3_missing_pid_drops_only_that_window default_config envPidFail wA [] [wB]
    "Window has no pid" rfl rfl

/-- C7, counterexample.
Windows 1 and 2 both match the `once` mapping (class pattern "X").  The
claim says window 2 still appears in the saved process list with an
automatically reconstructed command; instead `save_processes` returns a
single record — the second window is dropped from the list entirely
(src/process.rs lines 356-364 `return None`). -/
theorem c7_second_once_match_dropped_entirely :
    save_processes cfgOnce envAuto [wA, wB] =
      .ok [⟨["foo"], "/wd1"⟩] := rfl

/-- C7, amended: a `once` mapping is applied — command and working
directory taken from the mapping — to the first window it matches (its
index is recorded), and any subsequent window it matches is dropped
entirely from the saved process list (the per-window step returns no
record), not handed to automatic reconstruction. -/
theorem c7_once_first_match_applies_later_matches_dropped
    (cfg : Config) (env : ProcEnv) (w : Window) (pid i : Nat)
    (m : WindowCommandMapping) (once : List Nat)
    (hpl : w.is_placeholder = false)
    (hpid : env.getPid w.id = .ok pid)
    (hsel : selectWindowMapping cfg.window_command_mappings w = some (i, m))
    (honce : m.once = some true)
    (hig : m.ignored.getD false = false) :
    (once.contains i = false →
      processWindow cfg env once w =
        finishWindow cfg env pid w (i :: once) m.command m.working_directory) ∧
    (once.contains i = true → processWindow cfg env once w = .ok (once, none)) := by
  constructor <;> intro hmem
  · have hm : i ∉ once := by simpa using hmem
    simp [processWindow, hpl, hpid, hsel, honce, hig, hm]
  · have hm : i ∈ once := by simpa using hmem
    simp [processWindow, hpl, hpid, hsel, honce, hig, hm]

/-- C7 witness: the amended theorem applied at the concrete `once`
scenario — window 1 receives the mapping's command with index 0 recorded,
window 2 is dropped. -/
theorem c7_once_first_match_applies_later_matches_dropped_witness :
    processWindow cfgOnce envAuto [] wA =
      finishWindow cfgOnce envAuto 101 wA [0] onceMapping.command
        onceMapping.working_directory ∧
    processWindow cfgOnce envAuto [0] wB = .ok ([0], none) :=
  ⟨(c7_once_first_match_applies_later_matches_dropped cfgOnce envAuto wA 101 0
      onceMapping [] rfl rfl rfl rfl rfl).1 rfl,
   (c7_once_first_match_applies_later_matches_dropped cfgOnce envAuto wB 102 0
      onceMapping [0] rfl rfl rfl rfl rfl).2 rfl⟩

/-- Helper for C10: the window-mapping scoring loop only ever promotes a
mapping with a strictly positive score, and a mapping declaring no
pattern scores zero, so the result always declares a pattern (given the
invariant for the accumulator). -/
theorem selectWindowMappingGo_hasPattern (nm : String) (cl : Option String) :
    ∀ (l : List (Nat × WindowCommandMapping)) (best : Nat)
      (cur : Option (Nat × WindowCommandMapping)),
      (∀ i m, cur = some (i, m) → m.title_re.isSome ∨ m.class_re.isSome) →
      ∀ i m, selectWindowMappingGo nm cl l best cur = some (i, m) →
        m.title_re.isSome ∨ m.class_re.isSome := by
  intro l
  induction l with
  | nil => intro best cur hcur i m h; exact hcur i m h
  | cons hd tl ih =>
      obtain ⟨j, mp⟩ := hd
      intro best cur hcur i m h
      by_cases hmp : mp.title_re.isSome ∨ mp.class_re.isSome
      · revert h
        simp only [selectWindowMappingGo]
        split
        · exact fun h => ih best cur hcur i m h
        · split
          · refine fun h => ih _ _ ?_ i m h
            intro i' m' he
            injection he with he'
            cases he'
            exact hmp
          · exact fun h => ih best cur hcur i m h
      · have ht : mp.title_re = none := by
          cases hmt : mp.title_re with
          | none => rfl
          | some p => exact absurd (Or.inl (by simp [hmt])) hmp
        have hc : mp.class_re = none := by
          cases hmc : mp.class_re with
          | none => rfl
          | some p => exact absurd (Or.inr (by simp [hmc])) hmp
        revert h
        simp only [selectWindowMappingGo, ht, hc]
        simp only [Option.pure_def, Option.bind_eq_bind, Option.some_bind]
        rw [if_neg (by omega)]
        exact fun h => ih best cur hcur i m h

/-- Helper for C10: same property for the terminal-mapping scoring loop. -/
theorem selectTerminalMappingGo_hasPattern (prog args : String) :
    ∀ (l : List TerminalCommandMapping) (best : Nat)
      (cur : Option TerminalCommandMapping),
      (∀ m, cur = some m → m.name_re.isSome ∨ m.args_re.isSome) →
      ∀ m, selectTerminalMappingGo prog args l best cur = some m →
        m.name_re.isSome ∨ m.args_re.isSome := by
  intro l
  induction l with
  | nil => intro best cur hcur m h; exact hcur m h
  | cons mp tl ih =>
      intro best cur hcur m h
      by_cases hmp : mp.name_re.isSome ∨ mp.args_re.isSome
      · revert h
        simp only [selectTerminalMappingGo]
        split
        · exact fun h => ih best cur hcur m h
        · split
          · refine fun h => ih _ _ ?_ m h
            intro m' he
            injection he with he'
            cases he'
            exact hmp
          · exact fun h => ih best cur hcur m h
      · have hn : mp.name_re = none := by
          cases hmn : mp.name_re with
          | none => rfl
          | some p => exact absurd (Or.inl (by simp [hmn])) hmp
        have ha : mp.args_re = none := by
          cases hma : mp.args_re with
          | none => rfl
          | some p => exact absurd (Or.inr (by simp [hma])) hmp
        revert h
        simp only [selectTerminalMappingGo, hn, ha]
        simp only [Option.pure_def, Option.bind_eq_bind, Option.some_bind]
        rw [if_neg (by omega)]
        exact fun h => ih best cur hcur m h

/-- Helper for C10: if every mapping in the list declares no pattern, the
window-mapping scoring loop never changes its accumulator. -/
theorem selectWindowMappingGo_allPatternless (nm : String) (cl : Option String) :
    ∀ (l : List (Nat × WindowCommandMapping)) (best : Nat)
      (cur : Option (Nat × WindowCommandMapping)),
      (∀ p ∈ l, p.2.title_re = none ∧ p.2.class_re = none) →
      selectWindowMappingGo nm cl l best cur = cur := by
  intro l
  induction l with
  | nil => intro best cur _; rfl
  | cons hd tl ih =>
      obtain ⟨j, mp⟩ := hd
      intro best cur hall
      obtain ⟨ht, hc⟩ := hall (j, mp) (List.mem_cons_self _ _)
      have ht' : mp.title_re = none := ht
      have hc' : mp.class_re = none := hc
      simp only [selectWindowMappingGo, ht', hc']
      simp only [Option.pure_def, Option.bind_eq_bind, Option.some_bind]
      rw [if_neg (by omega)]
      exact ih best cur (fun p hp => hall p (List.mem_cons_of_mem _ hp))

/-- Helper for C10: same for the terminal-mapping scoring loop. -/
theorem selectTerminalMappingGo_allPatternless (prog args : String) :
    ∀ (l : List TerminalCommandMapping) (best : Nat)
      (cur : Option TerminalCommandMapping),
      (∀ m ∈ l, m.name_re = none ∧ m.args_re = none) →
      selectTerminalMappingGo prog args l best cur = cur := by
  intro l
  induction l with
  | nil => intro best cur _; rfl
  | cons mp tl ih =>
      intro best cur hall
      obtain ⟨hn, ha⟩ := hall mp (List.mem_cons_self _ _)
      simp only [selectTerminalMappingGo, hn, ha]
      simp only [Option.pure_def, Option.bind_eq_bind, Option.some_bind]
      rw [if_neg (by omega)]
      exact ih best cur (fun m hm => hall m (List.mem_cons_of_mem _ hm))



/-- C10.
A command mapping that declares neither of its optional patterns is never
selected: (1) any mapping the window-mapping resolver selects declares a
title or class pattern; (2) any mapping the terminal-mapping resolver
selects declares a name or args pattern; (3) for a configuration whose
window mappings all declare no pattern, the per-window step ignores the
mappings entirely — its command, working directory, `once` and `ignored`
effects are never applied and the window falls through to automatic
reconstruction (`finishWindow` with no mapping command and no mapping
working directory); (4) likewise the terminal resolver selects nothing
from all-patternless terminal mappings. -/
theorem c10_patternless_mapping_never_selected :
    (∀ (mappings : List WindowCommandMapping) (w : Window) (i : Nat)
        (m : WindowCommandMapping),
        selectWindowMapping mappings w = some (i, m) →
        m.title_re.isSome ∨ m.class_re.isSome) ∧
    (∀ (mappings : List TerminalCommandMapping) (program args_str : String)
        (m : TerminalCommandMapping),
        selectTerminalMapping mappings program args_str = some m →
        m.name_re.isSome ∨ m.args_re.isSome) ∧
    (∀ (cfg : Config) (env : ProcEnv) (once : List Nat) (w : Window) (pid : Nat),
        (∀ m ∈ cfg.window_command_mappings, m.title_re = none ∧ m.class_re = none) →
        w.is_placeholder = false →
        env.getPid w.id = .ok pid →
        processWindow cfg env once w = finishWindow cfg env pid w once none none) ∧
    (∀ (mappings : List TerminalCommandMapping) (program args_str : String),
        (∀ m ∈ mappings, m.name_re = none ∧ m.args_re = none) →
        selectTerminalMapping mappings program args_str = none) := by
  refine ⟨?_, ?_, ?_, ?_⟩
  · intro mappings w i m h
    exact selectWindowMappingGo_hasPattern w.name w.winClass mappings.enum 0 none
      (by intro i' m' h'; cases h') i m h
  · intro mappings prog args m h
    exact selectTerminalMappingGo_hasPattern prog args mappings 0 none
      (by intro m' h'; cases h') m h
  · intro cfg env once w pid hall hpl hpid
    have hsel : selectWindowMapping cfg.window_command_mappings w = none := by
      unfold selectWindowMapping
      refine selectWindowMappingGo_allPatternless w.name w.winClass _ 0 none ?_
      intro p hp
      refine hall p.2 ?_
      have h2 := List.mem_enum hp
      rw [h2.2]
      exact List.getElem_mem h2.1
    simp [processWindow, hpl, hpid, hsel]
  · intro mappings prog args hall
    exact selectTerminalMappingGo_allPatternless prog args mappings 0 none hall

/-- C10 witness: the theorem applied at concrete inputs — a selection
that does return a mapping (so the hypotheses are satisfiable) declares a
pattern, and with the all-patternless configuration the per-window step
falls through to automatic reconstruction even though the patternless
mapping sets command, working directory, `once` and `ignored`. -/
theorem c10_patternless_mapping_never_selected_witness :
    (onceMapping.title_re.isSome ∨ onceMapping.class_re.isSome) ∧
    processWindow cfgPatternless envAuto [] wA =
      finishWindow cfgPatternless envAuto 101 wA [] none none :=
  ⟨c10_patternless_mapping_never_selected.1 [onceMapping] wA 0 onceMapping rfl,
   c10_patternless_mapping_never_selected.2.2.1 cfgPatternless envAuto [] wA 101
     (by intro m hm; rw [List.mem_singleton.mp hm]; exact ⟨rfl, rfl⟩) rfl rfl⟩

/-- Helper for C4: when every i3 command succeeds, the trace of the replay
closure is exactly the plain directory-listing command sequence — a
`workspace` switch before each `append_layout` except for the very first
matching entry when it already equals the currently focused workspace. -/
theorem do_things_trace (run : String → Except String Unit)
    (hrun : ∀ s, run s = .ok ()) :
    ∀ (entries : List DirEnt) (focused : Option String) (first : Bool),
      (do_things run entries focused first).2 =
        specCmds
          (entries.filterMap
            (fun e => (wsNameOfFile e.file_name).map (fun n => (n, e.path))))
          focused first := by
  intro entries
  induction entries with
  | nil => intro focused first; rfl
  | cons e rest ih =>
      intro focused first
      cases hws : wsNameOfFile e.file_name with
      | none => simp [do_things, hws, ih]
      | some n =>
          cases first with
          | false => simp [do_things, hws, hrun, specCmds, ih]
          | true =>
              cases focused with
              | none => simp [do_things, hws, hrun, specCmds, ih]
              | some name =>
                  by_cases hn : name = n
                  · subst hn
                    simp [do_things, hws, hrun, specCmds, ih]
                  · simp [do_things, hws, hrun, specCmds, ih, hn]

/-- C4, amended: `restore_workspaces` replays the per-workspace layout
files in plain directory-listing order — the previously-focused workspace
entry is *not* moved last — and before each `append_layout` it issues a
`workspace <name>` command unless the entry is the very first matching one
and its name equals the currently focused workspace.  Stated for a run in
which every i3 command succeeds, the issued command sequence equals the
claim's sequence with no reordering (`prevFocused := none` in
`claimReplayCommands`). -/
theorem c4_replay_plain_directory_order (windows : List Window)
    (entries : List DirEnt) (focused : Option String)
    (run : String → Except String Unit) (hrun : ∀ s, run s = .ok ()) :
    (restore_workspaces windows entries focused run).commands =
      claimReplayCommands entries none focused := by
  have h := do_things_trace run hrun entries focused true
  simpa [restore_workspaces, claimReplayCommands] using h

/-- C4 witness: the amended theorem applied at the concrete three-workspace
scenario with an all-success command oracle. -/
theorem c4_replay_plain_directory_order_witness :
    (restore_workspaces c1windows c4entries (some "2") runOk).commands =
      claimReplayCommands c4entries none (some "2") :=
  c4_replay_plain_directory_order c1windows c4entries (some "2") runOk
    (fun _ => rfl)

/-! ## C8 / C9: swallow criteria of captured leaves -/



/-- Helper for C8: with no per-class criteria override and a class that is
not a revivable terminal, the synthesized swallow criteria are the
anchored escaped class and instance matches, with no title entry. -/
theorem buildSwallows_no_override (cfg : Config) (cls inst ttl : String) (wid : Nat)
    (hcrit : cfg.window_swallow_criteria.find? (fun p => p.1 = cls) = none)
    (hterm : cfg.terminal_revive_commands.find? (fun p => p.1 = cls) = none) :
    buildSwallows cfg (leafWindowProps cls inst ttl) (some wid) =
      some [("class", .str ("^" ++ regexEscape cls ++ "$")),
            ("instance", .str ("^" ++ regexEscape inst ++ "$"))] := by
  simp [buildSwallows, leafWindowProps, jget, jinsert, hcrit, hterm, JVal.asStr]

/-- Helper for C9: when the class is a configured revivable terminal and
has no criteria override, the swallow title is the fixed marker keyed to
the window id. -/
theorem buildSwallows_terminal (cfg : Config) (cls inst ttl tc : String) (wid : Nat)
    (hcrit : cfg.window_swallow_criteria.find? (fun p => p.1 = cls) = none)
    (hterm : cfg.terminal_revive_commands.find? (fun p => p.1 = cls) =
      some (cls, tc)) :
    buildSwallows cfg (leafWindowProps cls inst ttl) (some wid) =
      some [("class", .str ("^" ++ regexEscape cls ++ "$")),
            ("instance", .str ("^" ++ regexEscape inst ++ "$")),
            ("title", .str (terminalSwallowTitle wid))] := by
  simp [buildSwallows, leafWindowProps, jget, jinsert, hcrit, hterm, JVal.asStr]

/-- Helper for C8/C9: the per-node rewrite of the representative leaf
reduces to the pruned fields plus whatever swallow criteria the
configuration produces, with `window_properties` removed afterwards.
The proof evaluates the rewrite one source statement at a time. -/
theorem convert_node_mkLeafNode (cfg : Config) (cls inst ttl : String) (id : Nat)
    (sw : JObj)
    (hb : buildSwallows cfg (leafWindowProps cls inst ttl) (some id) = some sw) :
    convert_node cfg (mkLeafNode cls inst ttl id) = some (.obj
      [("type", .str "con"), ("percent", .num 1), ("border", .str "normal"),
       ("name", .str ttl), ("marks", .arr []),
       ("swallows", .arr [.obj sw])]) := by
  have g0 : (mkLeafNode cls inst ttl id).asObj = some
      [("id", .num 94), ("type", .str "con"), ("orientation", .str "none"),
       ("percent", .num 1), ("layout", .str "splith"), ("border", .str "normal"),
       ("current_border_width", .num (-1)), ("rect", zeroRect),
       ("window_rect", zeroRect), ("geometry", zeroRect),
       ("name", .str ttl), ("window", .num (.ofNat id)),
       ("window_properties", .obj (leafWindowProps cls inst ttl)),
       ("nodes", .arr []), ("floating_nodes", .arr []),
       ("fullscreen_mode", .num 0), ("marks", .arr [])] := rfl
  have g1 : is_leaf_node
      [("id", .num 94), ("type", .str "con"), ("orientation", .str "none"),
       ("percent", .num 1), ("layout", .str "splith"), ("border", .str "normal"),
       ("current_border_width", .num (-1)), ("rect", zeroRect),
       ("window_rect", zeroRect), ("geometry", zeroRect),
       ("name", .str ttl), ("window", .num (.ofNat id)),
       ("window_properties", .obj (leafWindowProps cls inst ttl)),
       ("nodes", .arr []), ("floating_nodes", .arr []),
       ("fullscreen_mode", .num 0), ("marks", .arr [])] = some true := rfl
  have g2 : (jget
      [("id", .num 94), ("type", .str "con"), ("orientation", .str "none"),
       ("percent", .num 1), ("layout", .str "splith"), ("border", .str "normal"),
       ("current_border_width", .num (-1)), ("rect", zeroRect),
       ("window_rect", zeroRect), ("geometry", zeroRect),
       ("name", .str ttl), ("window", .num (.ofNat id)),
       ("window_properties", .obj (leafWindowProps cls inst ttl)),
       ("nodes", .arr []), ("floating_nodes", .arr []),
       ("fullscreen_mode", .num 0), ("marks", .arr [])] "window").bind
      JVal.asU64 = some id := rfl
  have g3 : pruneLayout true
      [("id", .num 94), ("type", .str "con"), ("orientation", .str "none"),
       ("percent", .num 1), ("layout", .str "splith"), ("border", .str "normal"),
       ("current_border_width", .num (-1)), ("rect", zeroRect),
       ("window_rect", zeroRect), ("geometry", zeroRect),
       ("name", .str ttl), ("window", .num (.ofNat id)),
       ("window_properties", .obj (leafWindowProps cls inst ttl)),
       ("nodes", .arr []), ("floating_nodes", .arr []),
       ("fullscreen_mode", .num 0), ("marks", .arr [])] =
      [("id", .num 94), ("type", .str "con"), ("orientation", .str "none"),
       ("percent", .num 1), ("border", .str "normal"),
       ("current_border_width", .num (-1)), ("rect", zeroRect),
       ("window_rect", zeroRect), ("geometry", zeroRect),
       ("name", .str ttl), ("window", .num (.ofNat id)),
       ("window_properties", .obj (leafWindowProps cls inst ttl)),
       ("nodes", .arr []), ("floating_nodes", .arr []),
       ("fullscreen_mode", .num 0), ("marks", .arr [])] := rfl
  have g4 : pruneFullscreen
      [("id", .num 94), ("type", .str "con"), ("orientation", .str "none"),
       ("percent", .num 1), ("border", .str "normal"),
       ("current_border_width", .num (-1)), ("rect", zeroRect),
       ("window_rect", zeroRect), ("geometry", zeroRect),
       ("name", .str ttl), ("window", .num (.ofNat id)),
       ("window_properties", .obj (leafWindowProps cls inst ttl)),
       ("nodes", .arr []), ("floating_nodes", .arr []),
       ("fullscreen_mode", .num 0), ("marks", .arr [])] = some
      [("id", .num 94), ("type", .str "con"), ("orientation", .str "none"),
       ("percent", .num 1), ("border", .str "normal"),
       ("current_border_width", .num (-1)), ("rect", zeroRect),
       ("window_rect", zeroRect), ("geometry", zeroRect),
       ("name", .str ttl), ("window", .num (.ofNat id)),
       ("window_properties", .obj (leafWindowProps cls inst ttl)),
       ("nodes", .arr []), ("floating_nodes", .arr []),
       ("marks", .arr [])] := rfl
  have g5 : pruneName true
      [("id", .num 94), ("type", .str "con"), ("orientation", .str "none"),
       ("percent", .num 1), ("border", .str "normal"),
       ("current_border_width", .num (-1)), ("rect", zeroRect),
       ("window_rect", zeroRect), ("geometry", zeroRect),
       ("name", .str ttl), ("window", .num (.ofNat id)),
       ("window_properties", .obj (leafWindowProps cls inst ttl)),
       ("nodes", .arr []), ("floating_nodes", .arr []),
       ("marks", .arr [])] =
      [("id", .num 94), ("type", .str "con"), ("orientation", .str "none"),
       ("percent", .num 1), ("border", .str "normal"),
       ("current_border_width", .num (-1)), ("rect", zeroRect),
       ("window_rect", zeroRect), ("geometry", zeroRect),
       ("name", .str ttl), ("window", .num (.ofNat id)),
       ("window_properties", .obj (leafWindowProps cls inst ttl)),
       ("nodes", .arr []), ("floating_nodes", .arr []),
       ("marks", .arr [])] := rfl
  have g6 : pruneGeometry
      [("id", .num 94), ("type", .str "con"), ("orientation", .str "none"),
       ("percent", .num 1), ("border", .str "normal"),
       ("current_border_width", .num (-1)), ("rect", zeroRect),
       ("window_rect", zeroRect), ("geometry", zeroRect),
       ("name", .str ttl), ("window", .num (.ofNat id)),
       ("window_properties", .obj (leafWindowProps cls inst ttl)),
       ("nodes", .arr []), ("floating_nodes", .arr []),
       ("marks", .arr [])] = some
      [("id", .num 94), ("type", .str "con"), ("orientation", .str "none"),
       ("percent", .num 1), ("border", .str "normal"),
       ("current_border_width", .num (-1)), ("rect", zeroRect),
       ("window_rect", zeroRect),
       ("name", .str ttl), ("window", .num (.ofNat id)),
       ("window_properties", .obj (leafWindowProps cls inst ttl)),
       ("nodes", .arr []), ("floating_nodes", .arr []),
       ("marks", .arr [])] := rfl
  have g7 : pruneRect
      [("id", .num 94), ("type", .str "con"), ("orientation", .str "none"),
       ("percent", .num 1), ("border", .str "normal"),
       ("current_border_width", .num (-1)), ("rect", zeroRect),
       ("window_rect", zeroRect),
       ("name", .str ttl), ("window", .num (.ofNat id)),
       ("window_properties", .obj (leafWindowProps cls inst ttl)),
       ("nodes", .arr []), ("floating_nodes", .arr []),
       ("marks", .arr [])] = some
      [("id", .num 94), ("type", .str "con"), ("orientation", .str "none"),
       ("percent", .num 1), ("border", .str "normal"),
       ("current_border_width", .num (-1)),
       ("window_rect", zeroRect),
       ("name", .str ttl), ("window", .num (.ofNat id)),
       ("window_properties", .obj (leafWindowProps cls inst ttl)),
       ("nodes", .arr []), ("floating_nodes", .arr []),
       ("marks", .arr [])] := rfl
  have g8 : pruneBorderWidth
      [("id", .num 94), ("type", .str "con"), ("orientation", .str "none"),
       ("percent", .num 1), ("border", .str "normal"),
       ("current_border_width", .num (-1)),
       ("window_rect", zeroRect),
       ("name", .str ttl), ("window", .num (.ofNat id)),
       ("window_properties", .obj (leafWindowProps cls inst ttl)),
       ("nodes", .arr []), ("floating_nodes", .arr []),
       ("marks", .arr [])] = some
      [("id", .num 94), ("type", .str "con"), ("orientation", .str "none"),
       ("percent", .num 1), ("border", .str "normal"),
       ("window_rect", zeroRect),
       ("name", .str ttl), ("window", .num (.ofNat id)),
       ("window_properties", .obj (leafWindowProps cls inst ttl)),
       ("nodes", .arr []), ("floating_nodes", .arr []),
       ("marks", .arr [])] := rfl
  have g9 : pruneEmptyChildren "nodes"
      [("id", .num 94), ("type", .str "con"), ("orientation", .str "none"),
       ("percent", .num 1), ("border", .str "normal"),
       ("window_rect", zeroRect),
       ("name", .str ttl), ("window", .num (.ofNat id)),
       ("window_properties", .obj (leafWindowProps cls inst ttl)),
       ("nodes", .arr []), ("floating_nodes", .arr []),
       ("marks", .arr [])] = some
      [("id", .num 94), ("type", .str "con"), ("orientation", .str "none"),
       ("percent", .num 1), ("border", .str "normal"),
       ("window_rect", zeroRect),
       ("name", .str ttl), ("window", .num (.ofNat id)),
       ("window_properties", .obj (leafWindowProps cls inst ttl)),
       ("floating_nodes", .arr []),
       ("marks", .arr [])] := rfl
  have g10 : pruneEmptyChildren "floating_nodes"
      [("id", .num 94), ("type", .str "con"), ("orientation", .str "none"),
       ("percent", .num 1), ("border", .str "normal"),
       ("window_rect", zeroRect),
       ("name", .str ttl), ("window", .num (.ofNat id)),
       ("window_properties", .obj (leafWindowProps cls inst ttl)),
       ("floating_nodes", .arr []),
       ("marks", .arr [])] = some
      [("id", .num 94), ("type", .str "con"), ("orientation", .str "none"),
       ("percent", .num 1), ("border", .str "normal"),
       ("window_rect", zeroRect),
       ("name", .str ttl), ("window", .num (.ofNat id)),
       ("window_properties", .obj (leafWindowProps cls inst ttl)),
       ("marks", .arr [])] := rfl
  have g11 : pruneAllowList
      [("id", .num 94), ("type", .str "con"), ("orientation", .str "none"),
       ("percent", .num 1), ("border", .str "normal"),
       ("window_rect", zeroRect),
       ("name", .str ttl), ("window", .num (.ofNat id)),
       ("window_properties", .obj (leafWindowProps cls inst ttl)),
       ("marks", .arr [])] = prunedLeafFields cls inst ttl := rfl
  have g12 : attachSwallows cfg true (some id) (prunedLeafFields cls inst ttl) =
      Option.bind (buildSwallows cfg (leafWindowProps cls inst ttl) (some id))
        (fun swallows =>
          some (jinsert (prunedLeafFields cls inst ttl) "swallows"
            (.arr [.obj swallows]))) := rfl
  simp only [convert_node, g0, Option.some_bind, Option.bind_eq_bind, g1, g2, g3,
    g4, g5, g6, g7, g8, g9, g10, g11, g12, hb, Option.pure_def]
  rfl

/-- Helper for C8/C9: one step of `convert_go` on a node whose rewrite has
no `nodes` and no `floating_nodes` attribute. -/
theorem convert_go_no_children (cfg : Config) (n : Nat) (t : JVal) (o' : JObj)
    (h1 : convert_node cfg t = some (.obj o'))
    (h2 : jget o' "nodes" = none)
    (h3 : jget o' "floating_nodes" = none) :
    convert_go cfg (n + 1) t = some (.obj o') := by
  simp [convert_go, h1, h2, h3, JVal.asObj]

/-- C8.
For a leaf with window properties `{class, instance, title}` whose class
has no per-class criteria override and is not a revivable terminal,
`convert_to_layout` attaches swallow criteria with anchored escaped-literal
matches for class and instance, no title match, and removes the
`window_properties` attribute (the result contains `swallows` and no
`window_properties`). -/
theorem c8_swallow_criteria_class_instance_no_title (cfg : Config)
    (cls inst ttl : String) (id : Nat)
    (hcrit : cfg.window_swallow_criteria.find? (fun p => p.1 = cls) = none)
    (hterm : cfg.terminal_revive_commands.find? (fun p => p.1 = cls) = none) :
    convert_to_layout cfg (mkLeafNode cls inst ttl id) = some (.obj
      [("type", .str "con"), ("percent", .num 1), ("border", .str "normal"),
       ("name", .str ttl), ("marks", .arr []),
       ("swallows", .arr [.obj
         [("class", .str ("^" ++ regexEscape cls ++ "$")),
          ("instance", .str ("^" ++ regexEscape inst ++ "$"))]])]) := by
  have hj : jsize (mkLeafNode cls inst ttl id) = 33 := by
    simp [jsize, jsizeArr, jsizeObj, mkLeafNode, zeroRect, leafWindowProps]
  rw [convert_to_layout, hj, show (33 : Nat) = 32 + 1 from rfl]
  exact convert_go_no_children cfg 32 _ _
    (convert_node_mkLeafNode cfg cls inst ttl id _
      (buildSwallows_no_override cfg cls inst ttl id hcrit hterm)) rfl rfl

/-- C8 witness: the theorem at class "Foo", instance "bar", title "Baz",
window id 7 under the empty configuration. -/
theorem c8_swallow_criteria_class_instance_no_title_witness :
    convert_to_layout default_config (mkLeafNode "Foo" "bar" "Baz" 7) = some (.obj
      [("type", .str "con"), ("percent", .num 1), ("border", .str "normal"),
       ("name", .str "Baz"), ("marks", .arr []),
       ("swallows", .arr [.obj
         [("class", .str ("^" ++ regexEscape "Foo" ++ "$")),
          ("instance", .str ("^" ++ regexEscape "bar" ++ "$"))]])]) :=
  c8_swallow_criteria_class_instance_no_title default_config "Foo" "bar" "Baz" 7
    rfl rfl

/-- C9.
For a leaf whose class is a configured revivable terminal with no title
criteria override: (1) the swallow title written at capture is the fixed
marker `Terminal-Window-<id>` keyed to the window's numeric identifier
(the same `window` id `save_processes` later passes to
`get_terminal_process_cmd` as `window_id`, src/process.rs line 396);
(2) the respawn command built for that window — the string the spawned
shell executes via `-c` — opens with the OSC-0 escape
`\033]0;<printed title>\007`, whose printed title is
`Revive-` ++ `Terminal-Window-<id>`; and (3) the printed title therefore
contains the saved swallow title pattern as a substring, so the
unanchored literal regex `Terminal-Window-<id>` (it contains no regex
metacharacter for any `id`) matches the printed title, rebinding the
placeholder to the respawned terminal. -/
theorem c9_terminal_title_marker_round_trip (cfg : Config)
    (cls inst ttl tc : String) (id : Nat)
    (hcrit : cfg.window_swallow_criteria.find? (fun p => p.1 = cls) = none)
    (hterm : cfg.terminal_revive_commands.find? (fun p => p.1 = cls) =
      some (cls, tc)) :
    convert_to_layout cfg (mkLeafNode cls inst ttl id) = some (.obj
      [("type", .str "con"), ("percent", .num 1), ("border", .str "normal"),
       ("name", .str ttl), ("marks", .arr []),
       ("swallows", .arr [.obj
         [("class", .str ("^" ++ regexEscape cls ++ "$")),
          ("instance", .str ("^" ++ regexEscape inst ++ "$")),
          ("title", .str (terminalSwallowTitle id))]])]) ∧
    (∀ interactive shell_cmd : String,
      process_with_title_cmd id interactive shell_cmd =
        "echo -ne \"\\033]0;" ++ ("Revive-" ++ terminalSwallowTitle id) ++
          ("\\007\"; sleep 0.5; " ++ interactive ++ "; exec " ++ shell_cmd)) ∧
    (∃ pre post : String,
      "Revive-" ++ terminalSwallowTitle id =
        pre ++ terminalSwallowTitle id ++ post) := by
  refine ⟨?_, ?_, ?_⟩
  · have hj : jsize (mkLeafNode cls inst ttl id) = 33 := by
      simp [jsize, jsizeArr, jsizeObj, mkLeafNode, zeroRect, leafWindowProps]
    rw [convert_to_layout, hj, show (33 : Nat) = 32 + 1 from rfl]
    exact convert_go_no_children cfg 32 _ _
      (convert_node_mkLeafNode cfg cls inst ttl id _
        (buildSwallows_terminal cfg cls inst ttl tc id hcrit hterm)) rfl rfl
  · intro interactive shell_cmd
    simp only [process_with_title_cmd, terminalSwallowTitle,
      ← String.append_assoc]
    rfl
  · exact ⟨"Revive-", "", by rw [String.append_empty]⟩



/-- C9 witness: the theorem at class "Alacritty", window id 42, under a
configuration declaring Alacritty as a revivable terminal. -/
theorem c9_terminal_title_marker_round_trip_witness :
    convert_to_layout cfgTerm (mkLeafNode "Alacritty" "Alacritty" "zsh" 42) =
      some (.obj
        [("type", .str "con"), ("percent", .num 1), ("border", .str "normal"),
         ("name", .str "zsh"), ("marks", .arr []),
         ("swallows", .arr [.obj
           [("class", .str ("^" ++ regexEscape "Alacritty" ++ "$")),
            ("instance", .str ("^" ++ regexEscape "Alacritty" ++ "$")),
            ("title", .str (terminalSwallowTitle 42))]])]) ∧
    process_with_title_cmd 42 "inter" "/bin/zsh" =
      "echo -ne \"\\033]0;" ++ ("Revive-" ++ terminalSwallowTitle 42) ++
        ("\\007\"; sleep 0.5; " ++ "inter" ++ "; exec " ++ "/bin/zsh") :=
  ⟨(c9_terminal_title_marker_round_trip cfgTerm "Alacritty" "Alacritty" "zsh"
      "alacritty -e \x7bcmd\x7d" 42 rfl rfl).1,
   (c9_terminal_title_marker_round_trip cfgTerm "Alacritty" "Alacritty" "zsh"
      "alacritty -e \x7bcmd\x7d" 42 rfl rfl).2.1 "inter" "/bin/zsh"⟩

end I3Revive
